import Mathlib

/-!
Verification of the session-orchestration core of the aivoice_learning backend.

The Python sources under src/backend are shallowly embedded: pure functions
become Lean functions, stateful methods become explicit state passing, wall
clock time (datetime.now) becomes an explicit numeric parameter, and fallible
calls become Except values.
-/

namespace AivoiceLearning

/-! ## Data model: ConversationSession (src/backend/services/session_service.py) -/

/-- One entry of a session's conversation_history: a dict with keys
speaker, text, timestamp (session_service.py lines 29-33).  The ISO timestamp
string is modelled by a numeric clock value. -/
structure Message where
  speaker : String
  text : String
  timestamp : Nat
deriving Repr, DecidableEq

/-- A per-utterance evaluation result dict.  Its internal structure is
irrelevant to the orchestration claims; only identity and count matter, so it
is modelled as an opaque payload string. -/
abbrev FeedbackItem := String

/-- State of a ConversationSession (session_service.py lines 13-25).
datetime.now() is modelled by explicit time parameters at each mutating call.
The difficulty attribute is attached dynamically by main.py line 593; it is
included here as a field defaulted at creation. -/
structure ConversationSession where
  session_id : String
  character_id : String
  turn_count : Nat
  conversation_history : List Message
  start_time : Nat
  end_time : Option Nat
  is_completed : Bool
  feedback_items : List FeedbackItem
  overall_assessment : Option String
  difficulty : String
deriving Repr, DecidableEq

/-- ConversationSession.__init__ (session_service.py lines 16-25) followed by
the handler's default difficulty assignment (main.py line 593).  The uuid is
modelled as a parameter. -/
def ConversationSession.new (session_id character_id : String) (now : Nat) :
    ConversationSession where
  session_id := session_id
  character_id := character_id
  turn_count := 0
  conversation_history := []
  start_time := now
  end_time := none
  is_completed := false
  feedback_items := []
  overall_assessment := none
  difficulty := "intermediate"

/-- ConversationSession.add_message (session_service.py lines 27-37): append
the entry, and increment turn_count exactly when the speaker is "user". -/
def ConversationSession.add_message (s : ConversationSession)
    (speaker text : String) (now : Nat) : ConversationSession :=
  let s1 := { s with conversation_history :=
    s.conversation_history ++ [⟨speaker, text, now⟩] }
  if speaker = "user" then { s1 with turn_count := s1.turn_count + 1 } else s1

/-- ConversationSession.add_feedback_item (session_service.py lines 39-41). -/
def ConversationSession.add_feedback_item (s : ConversationSession)
    (item : FeedbackItem) : ConversationSession :=
  { s with feedback_items := s.feedback_items ++ [item] }

/-- ConversationSession.complete_session (session_service.py lines 43-46):
sets is_completed to True and unconditionally overwrites end_time with the
current time. -/
def ConversationSession.complete_session (s : ConversationSession)
    (now : Nat) : ConversationSession :=
  { s with is_completed := true, end_time := some now }

/-- Number of user-speaker entries in the conversation history, i.e.
count(history where speaker == user). -/
def user_message_count (s : ConversationSession) : Nat :=
  (s.conversation_history.filter (fun m => m.speaker = "user")).length

/-- MAX_TURNS (main.py line 606). -/
def MAX_TURNS : Nat := 10

/-! ## One accepted non-empty user turn (main.py lines 816-894)

Session mutations performed by the audio branch of websocket_chat once a
non-empty transcript has been accepted: append the user message (turn_count
increments inside add_message), complete the session when turn_count has
reached MAX_TURNS, then append the AI reply. -/

/-- The session-state effect of one accepted user turn (main.py lines 828,
849-853, 894). -/
def accepted_turn (s : ConversationSession) (user_text ai_text : String)
    (now : Nat) : ConversationSession :=
  let s1 := s.add_message "user" user_text now
  let s2 := if s1.turn_count ≥ MAX_TURNS then s1.complete_session now else s1
  s2.add_message "ai" ai_text now

/-- A sequence of accepted non-empty user turns, each given as the pair
(transcript, ai reply). -/
def run_turns (s : ConversationSession) (turns : List (String × String))
    (now : Nat) : ConversationSession :=
  turns.foldl (fun st p => accepted_turn st p.1 p.2 now) s

lemma add_message_user_turn_count (s : ConversationSession) (text : String)
    (now : Nat) : (s.add_message "user" text now).turn_count = s.turn_count + 1 := by
  simp [ConversationSession.add_message]

lemma add_message_nonuser_turn_count (s : ConversationSession)
    (speaker text : String) (now : Nat) (h : speaker ≠ "user") :
    (s.add_message speaker text now).turn_count = s.turn_count := by
  simp [ConversationSession.add_message, h]

lemma add_message_user_count_user (s : ConversationSession) (text : String)
    (now : Nat) :
    user_message_count (s.add_message "user" text now) = user_message_count s + 1 := by
  simp [ConversationSession.add_message, user_message_count]

lemma add_message_user_count_nonuser (s : ConversationSession)
    (speaker text : String) (now : Nat) (h : speaker ≠ "user") :
    user_message_count (s.add_message speaker text now) = user_message_count s := by
  simp [ConversationSession.add_message, user_message_count, h]

lemma add_message_is_completed (s : ConversationSession)
    (speaker text : String) (now : Nat) :
    (s.add_message speaker text now).is_completed = s.is_completed := by
  simp only [ConversationSession.add_message]
  split <;> rfl

lemma accepted_turn_turn_count (s : ConversationSession)
    (user_text ai_text : String) (now : Nat) :
    (accepted_turn s user_text ai_text now).turn_count = s.turn_count + 1 := by
  simp only [accepted_turn]
  split <;>
    simp [add_message_nonuser_turn_count, ConversationSession.complete_session,
      add_message_user_turn_count]

lemma accepted_turn_user_count (s : ConversationSession)
    (user_text ai_text : String) (now : Nat) :
    user_message_count (accepted_turn s user_text ai_text now) =
      user_message_count s + 1 := by
  simp only [accepted_turn]
  split <;>
    simp [add_message_user_count_nonuser, ConversationSession.complete_session,
      user_message_count, ConversationSession.add_message]

lemma accepted_turn_is_completed (s : ConversationSession)
    (user_text ai_text : String) (now : Nat) :
    (accepted_turn s user_text ai_text now).is_completed =
      (s.is_completed || decide (s.turn_count + 1 ≥ MAX_TURNS)) := by
  simp only [accepted_turn]
  rcases Nat.lt_or_ge (s.turn_count + 1) MAX_TURNS with h | h
  · rw [if_neg]
    · simp [add_message_is_completed, Nat.not_le.mpr h]
    · simpa [add_message_user_turn_count] using Nat.not_le.mpr h
  · rw [if_pos]
    · simp [add_message_is_completed, ConversationSession.complete_session, h]
    · simpa [add_message_user_turn_count] using h

/-- The turn invariant, parameterized over the starting state. -/
def turn_inv (s : ConversationSession) : Prop :=
  s.turn_count = user_message_count s ∧
    s.is_completed = decide (s.turn_count ≥ MAX_TURNS)

lemma accepted_turn_inv (s : ConversationSession) (user_text ai_text : String)
    (now : Nat) (h : turn_inv s) : turn_inv (accepted_turn s user_text ai_text now) := by
  obtain ⟨h1, h2⟩ := h
  constructor
  · rw [accepted_turn_turn_count, accepted_turn_user_count, h1]
  · rw [accepted_turn_is_completed, accepted_turn_turn_count, h2]
    rcases Nat.lt_or_ge (s.turn_count + 1) MAX_TURNS with hlt | hge
    · simp [Nat.not_le.mpr hlt, Nat.not_le.mpr (Nat.lt_of_succ_lt hlt)]
    · simp [hge]

lemma run_turns_inv (turns : List (String × String)) (s : ConversationSession)
    (now : Nat) (h : turn_inv s) :
    turn_inv (run_turns s turns now) ∧
      (run_turns s turns now).turn_count = s.turn_count + turns.length := by
  induction turns generalizing s with
  | nil => simpa [run_turns]
  | cons p rest ih =>
    have step := accepted_turn_inv s p.1 p.2 now h
    have := ih (accepted_turn s p.1 p.2 now) step
    refine ⟨this.1, ?_⟩
    have : (run_turns s (p :: rest) now) =
        run_turns (accepted_turn s p.1 p.2 now) rest now := by
      simp [run_turns]
    rw [this, (ih _ step).2, accepted_turn_turn_count]
    simp only [List.length_cons]
    omega

lemma add_ai_preserves_inv (s : ConversationSession) (text : String) (now : Nat)
    (h : turn_inv s) :
    turn_inv (s.add_message "ai" text now) ∧
      (s.add_message "ai" text now).turn_count = s.turn_count := by
  have hne : ("ai" : String) ≠ "user" := by decide
  refine ⟨⟨?_, ?_⟩, add_message_nonuser_turn_count s "ai" text now hne⟩
  · rw [add_message_nonuser_turn_count s "ai" text now hne,
      add_message_user_count_nonuser s "ai" text now hne]
    exact h.1
  · rw [add_message_is_completed, add_message_nonuser_turn_count s "ai" text now hne]
    exact h.2

lemma fold_ai_preserves_inv (greetings : List (String × Nat))
    (s : ConversationSession) (h : turn_inv s) :
    turn_inv (greetings.foldl (fun st g => st.add_message "ai" g.1 g.2) s) ∧
      (greetings.foldl (fun st g => st.add_message "ai" g.1 g.2) s).turn_count =
        s.turn_count := by
  induction greetings generalizing s with
  | nil => exact ⟨h, rfl⟩
  | cons g rest ih =>
    rw [List.foldl_cons]
    have step := add_ai_preserves_inv s g.1 g.2 h
    have := ih (s.add_message "ai" g.1 g.2) step.1
    exact ⟨this.1, by rw [this.2, step.2]⟩

lemma new_session_inv (sid cid : String) (t0 : Nat) :
    turn_inv (ConversationSession.new sid cid t0) := by
  constructor
  · simp [ConversationSession.new, user_message_count]
  · simp [ConversationSession.new, MAX_TURNS]

/-- C1: starting from a fresh session (with any non-user greeting messages
already in the history, as the init handler appends the persona's
init_message with speaker "ai", main.py line 743), after each accepted
non-empty user turn the session's turn_count equals the number of
user-speaker entries in conversation_history, agent entries never change
turn_count, turn_count after n accepted turns is n, and the session is
completed exactly for n ≥ MAX_TURNS = 10 — so it transitions to completed
exactly when turn_count first reaches 10.  Prefixes of a turn sequence are
instances of the quantifier, so this characterizes the state after every
accepted turn. -/
theorem turn_count_invariant_and_completion
    (sid cid : String) (t0 now : Nat) (greetings : List (String × Nat))
    (turns : List (String × String)) :
    (run_turns (greetings.foldl (fun st g => st.add_message "ai" g.1 g.2)
        (ConversationSession.new sid cid t0)) turns now).turn_count =
      user_message_count (run_turns (greetings.foldl
        (fun st g => st.add_message "ai" g.1 g.2)
        (ConversationSession.new sid cid t0)) turns now) ∧
    (run_turns (greetings.foldl (fun st g => st.add_message "ai" g.1 g.2)
        (ConversationSession.new sid cid t0)) turns now).turn_count =
      turns.length ∧
    (run_turns (greetings.foldl (fun st g => st.add_message "ai" g.1 g.2)
        (ConversationSession.new sid cid t0)) turns now).is_completed =
      decide (turns.length ≥ MAX_TURNS) := by
  have h0 := fold_ai_preserves_inv greetings _ (new_session_inv sid cid t0)
  have hrun := run_turns_inv turns _ now h0.1
  have htc : (run_turns (greetings.foldl (fun st g => st.add_message "ai" g.1 g.2)
      (ConversationSession.new sid cid t0)) turns now).turn_count = turns.length := by
    rw [hrun.2, h0.2]
    simp [ConversationSession.new]
  exact ⟨hrun.1.1, htc, by rw [hrun.1.2, htc]⟩

/-! ## C4: behaviour of complete_session called twice

complete_session (session_service.py lines 43-46) sets is_completed to True
and unconditionally re-assigns end_time to datetime.now().  A second call at
a later time therefore changes end_time. -/

/-- C4 counterexample: complete a fresh session at time 1, call
complete_session again at time 2 — end_time changes from some 1 to some 2,
so the second call does not leave endedAt unchanged. -/
theorem complete_session_not_idempotent_on_end_time :
    (((ConversationSession.new "s" "jeongsu" 0).complete_session 1).complete_session 2).end_time
      ≠ ((ConversationSession.new "s" "jeongsu" 0).complete_session 1).end_time ∧
    ((ConversationSession.new "s" "jeongsu" 0).complete_session 1).end_time = some 1 ∧
    (((ConversationSession.new "s" "jeongsu" 0).complete_session 1).complete_session 2).end_time
      = some 2 := by
  refine ⟨?_, rfl, rfl⟩
  simp [ConversationSession.complete_session]

/-- C4 amended: a second call to complete_session leaves is_completed
unchanged (it stays true), but overwrites end_time with the time of the
second call; so the operation is idempotent on is_completed, and on end_time
only when the two calls carry the same clock value. -/
theorem complete_session_second_call
    (s : ConversationSession) (t1 t2 : Nat) :
    ((s.complete_session t1).complete_session t2).is_completed
        = (s.complete_session t1).is_completed ∧
      ((s.complete_session t1).complete_session t2).end_time = some t2 ∧
      (s.complete_session t1).end_time = some t1 := by
  refine ⟨?_, rfl, rfl⟩
  simp [ConversationSession.complete_session]

/-! ## C7: emotion classification (main.py lines 110-140)

analyze_emotion_from_text lowercases the reply and checks keyword groups
with Python substring containment, in the fixed order excited, surprised,
thoughtful, smile, defaulting to neutral. -/

/-- Python str.lower restricted to the ASCII range (every keyword below is
ASCII or an emoji, both of which str.lower maps the same way). -/
def py_lower_char (c : Char) : Char :=
  if 'A' ≤ c ∧ c ≤ 'Z' then Char.ofNat (c.toNat + 32) else c

/-- The lowercased character sequence of a string (text.lower()). -/
def py_lower (s : String) : List Char := s.data.map py_lower_char

/-- Whether pat is an initial segment of s (helper for substring search). -/
def starts_with : List Char → List Char → Bool
  | [], _ => true
  | _ :: _, [] => false
  | a :: pa, b :: pb => a = b && starts_with pa pb

/-- Python substring containment: pat in s. -/
def contains_sub (pat : List Char) : List Char → Bool
  | [] => starts_with pat []
  | b :: rest => starts_with pat (b :: rest) || contains_sub pat rest

/-- Keyword group 1, excited (main.py line 124). -/
def excited_keywords : List String :=
  ["excited", "thrilled", "can\x27t wait", "amazing", "awesome", "fantastic",
    "incredible"]

/-- Keyword group 2, surprised (main.py line 128). -/
def surprised_keywords : List String :=
  ["wow", "really?", "seriously?", "no way", "oh my", "surprised", "shocking",
    "unbelievable"]

/-- Keyword group 3, thoughtful (main.py line 132). -/
def thoughtful_keywords : List String :=
  ["hmm", "let me think", "interesting", "i see", "that\x27s a good",
    "wondering", "curious", "consider"]

/-- Keyword group 4, smile (main.py line 136). -/
def smile_keywords : List String :=
  ["happy", "glad", "great", "good", "nice", "wonderful", "pleased", "haha",
    "lol", "😊"]

/-- Whether any keyword of the group occurs in the lowercased text
(any(word in text_lower for word in ...)). -/
def matches_group (group : List String) (text : String) : Bool :=
  group.any (fun w => contains_sub w.data (py_lower text))

/-- analyze_emotion_from_text (main.py lines 110-140). -/
def analyze_emotion_from_text (text : String) : String :=
  if matches_group excited_keywords text then "excited"
  else if matches_group surprised_keywords text then "surprised"
  else if matches_group thoughtful_keywords text then "thoughtful"
  else if matches_group smile_keywords text then "smile"
  else "neutral"

/-- C7: emotion classification is a pure total function of the reply text
(it is a Lean function, hence deterministic), honours the fixed priority
excited, surprised, thoughtful, smile with neutral as the default when no
keyword group matches; in particular a text matching both an excited keyword
and a smile keyword classifies as excited. -/
theorem emotion_priority_order (text : String) :
    (matches_group excited_keywords text = true →
        analyze_emotion_from_text text = "excited") ∧
    (matches_group excited_keywords text = false →
      matches_group surprised_keywords text = true →
        analyze_emotion_from_text text = "surprised") ∧
    (matches_group excited_keywords text = false →
      matches_group surprised_keywords text = false →
      matches_group thoughtful_keywords text = true →
        analyze_emotion_from_text text = "thoughtful") ∧
    (matches_group excited_keywords text = false →
      matches_group surprised_keywords text = false →
      matches_group thoughtful_keywords text = false →
      matches_group smile_keywords text = true →
        analyze_emotion_from_text text = "smile") ∧
    (matches_group excited_keywords text = false →
      matches_group surprised_keywords text = false →
      matches_group thoughtful_keywords text = false →
      matches_group smile_keywords text = false →
        analyze_emotion_from_text text = "neutral") ∧
    (matches_group excited_keywords text = true →
      matches_group smile_keywords text = true →
        analyze_emotion_from_text text = "excited") := by
  refine ⟨?_, ?_, ?_, ?_, ?_, ?_⟩ <;>
    intros <;> simp_all [analyze_emotion_from_text]

/-- C7 witness: the reply contains the excited keyword "amazing" and the
smile keyword "happy", and classifies as excited; a keyword-free reply
classifies as neutral. -/
theorem emotion_priority_order_witness :
    analyze_emotion_from_text "Amazing! I am so happy for you." = "excited" ∧
      analyze_emotion_from_text "I went to the library." = "neutral" := by
  constructor
  · exact (emotion_priority_order "Amazing! I am so happy for you.").2.2.2.2.2
      (by decide) (by decide)
  · exact (emotion_priority_order "I went to the library.").2.2.2.2.1
      (by decide) (by decide) (by decide) (by decide)

/-! ## C6: empty-transcript handling in the audio branch (main.py lines 777-803)

The audio branch sends a status message, transcribes, and if the transcript
is empty after str.strip() it sends a recoverable error notice and continues
the loop without touching the session.  Otherwise it performs the accepted
turn of run_turns above and streams the reply. -/

/-- Python str.isspace characters in the ASCII range (str.strip() with no
argument removes these from both ends). -/
def is_py_space (c : Char) : Bool :=
  c = ' ' || c = '\t' || c = '\n' || c = '\r' || c = '\x0b' || c = '\x0c'

/-- Python str.strip(): drop whitespace from both ends. -/
def py_strip (s : String) : String :=
  ⟨((s.data.dropWhile is_py_space).reverse.dropWhile is_py_space).reverse⟩

/-- Server-to-client messages emitted by the websocket handler, tagged by
their type field. -/
inductive ServerMsg
  | status (m : String)
  | error_notice (m : String)
  | stt_result (t : String)
  | turn_count_update (turn maxTurns : Nat)
  | llm_result (t : String)
  | character_image (url emotion : String)
  | session_completed_msg (sid : String) (turn : Nat)
  | audio_stream_start
  | audio_stream_end
  | suggested_responses (l : List String)
  | blocked_notice (m : String)
  | connected_msg (sid : String) (maxTurns : Nat)
  | pong
deriving DecidableEq, Repr

/-- Whether the message-receive loop continues to the next iteration or
breaks (continue vs break/close in the handler). -/
inductive LoopCtl
  | continue_loop
  | break_loop
deriving DecidableEq, Repr

/-- The audio branch of websocket_chat (main.py lines 777-1037) given the
transcript returned by speech-to-text and the reply returned by the language
model: resulting session state, emitted messages (audio chunks elided), and
whether the loop continues.  emotion_images/default_image model the persona's
emotion_images dict lookup with its default (main.py line 904). -/
def handle_audio_transcript (s : ConversationSession) (user_text ai_text : String)
    (emotion_images : String → Option String) (default_image : String)
    (now : Nat) : ConversationSession × List ServerMsg × LoopCtl :=
  if py_strip user_text = "" then
    (s, [.status "음성 인식 중...",
         .error_notice "음성을 인식할 수 없습니다. 다시 말씀해주세요."],
      .continue_loop)
  else
    let s1 := s.add_message "user" user_text now
    let is_final := s1.turn_count ≥ MAX_TURNS
    let s2 := if is_final then s1.complete_session now else s1
    let s3 := s2.add_message "ai" ai_text now
    let emotion := analyze_emotion_from_text ai_text
    let image := (emotion_images emotion).getD default_image
    (s3,
      [.status "음성 인식 중...", .stt_result user_text,
       .status "응답 생성 중...", .turn_count_update s1.turn_count MAX_TURNS,
       .llm_result ai_text, .character_image image emotion,
       .status "음성 합성 중..."] ++
        (if is_final then [.session_completed_msg s3.session_id s3.turn_count]
          else []) ++
        [.audio_stream_start, .audio_stream_end],
      if is_final then .break_loop else .continue_loop)

/-- The non-empty branch of handle_audio_transcript performs exactly the
session mutation accepted_turn of the C1 development. -/
theorem handle_audio_nonempty_state (s : ConversationSession)
    (user_text ai_text : String) (emotion_images : String → Option String)
    (default_image : String) (now : Nat) (h : py_strip user_text ≠ "") :
    (handle_audio_transcript s user_text ai_text emotion_images default_image
      now).1 = accepted_turn s user_text ai_text now := by
  simp [handle_audio_transcript, h, accepted_turn]

/-- Witness for handle_audio_nonempty_state at a concrete non-blank
transcript. -/
theorem handle_audio_nonempty_state_witness :
    (handle_audio_transcript (ConversationSession.new "s" "jeongsu" 0) "Hi there"
        "Hello!" (fun _ => none) "/characters/man.webp" 3).1 =
      accepted_turn (ConversationSession.new "s" "jeongsu" 0) "Hi there"
        "Hello!" 3 :=
  handle_audio_nonempty_state (ConversationSession.new "s" "jeongsu" 0)
    "Hi there" "Hello!" (fun _ => none) "/characters/man.webp" 3 (by decide)

/-- C6: a transcript that is empty or whitespace-only (str.strip() yields the
empty string) makes the pipeline emit only the status message and the
recoverable error notice, continue the loop, and leave the session state —
turn_count, conversation_history, completion status, everything — exactly
unchanged. -/
theorem empty_transcript_leaves_state_unchanged (s : ConversationSession)
    (user_text ai_text : String) (emotion_images : String → Option String)
    (default_image : String) (now : Nat) (h : py_strip user_text = "") :
    handle_audio_transcript s user_text ai_text emotion_images default_image now =
      (s, [.status "음성 인식 중...",
           .error_notice "음성을 인식할 수 없습니다. 다시 말씀해주세요."],
        .continue_loop) := by
  simp [handle_audio_transcript, h]

/-- C6 witness: a whitespace-only transcript on a session that already holds
three turns leaves the session untouched and keeps the loop alive. -/
theorem empty_transcript_leaves_state_unchanged_witness :
    handle_audio_transcript
        (run_turns (ConversationSession.new "s" "jeongsu" 0)
          [("a", "b"), ("c", "d"), ("e", "f")] 1)
        " \t \n " "ignored" (fun _ => none) "/characters/man.webp" 5 =
      (run_turns (ConversationSession.new "s" "jeongsu" 0)
          [("a", "b"), ("c", "d"), ("e", "f")] 1,
        [.status "음성 인식 중...",
         .error_notice "음성을 인식할 수 없습니다. 다시 말씀해주세요."],
        .continue_loop) :=
  empty_transcript_leaves_state_unchanged _ " \t \n " "ignored" (fun _ => none)
    "/characters/man.webp" 5 (by decide)

/-! ## C2: access policy guard (src/backend/database.py lines 236-301)

Database.check_user_ever_completed consults the durable sessions table.  The
table and the possibility that the lookup raises are modelled by an Except
value; the rows carry exactly the columns the query touches. -/

/-- A row of the durable sessions table (database.py lines 42-58), restricted
to the columns check_user_ever_completed reads or filters on. -/
structure SessionRecord where
  session_id : String
  character_id : String
  fingerprint : Option String
  is_completed : Bool
  user_ip : Option String
  end_time : Option Nat
deriving Repr, DecidableEq

/-- Python truthiness of an Optional[str]: None and the empty string are
falsy. -/
def py_truthy_str : Option String → Bool
  | none => false
  | some s => !(s = "")

/-- Database.check_user_ever_completed (database.py lines 236-301).  The
lookup argument is the outcome of the durable query (error when psycopg2
raises).  If the fingerprint is falsy the guard returns False without
consulting the table; on a lookup error the except clause returns False
(fails open); otherwise it reports whether some completed row carries this
fingerprint — the query filters only on fingerprint and is_completed, never
on user_ip or character_id. -/
def check_user_ever_completed (lookup : Except Unit (List SessionRecord))
    (user_ip fingerprint : Option String) : Bool :=
  if !(py_truthy_str fingerprint) then false
  else
    match lookup with
    | .error _ => false
    | .ok records =>
      records.any (fun r => r.fingerprint = fingerprint && r.is_completed)

/-- A durable row whose fingerprint column is the empty string and which is
completed, used to separate "absent" from "present but empty". -/
def empty_fp_record : SessionRecord :=
  { session_id := "s-prior", character_id := "jeongsu",
    fingerprint := some "", is_completed := true,
    user_ip := some "198.51.100.7", end_time := some 99 }

/-- C2 counterexample: a present-but-empty fingerprint (the Python value "",
which is a present Optional[str] argument but falsy) is admitted even though
a completed durable record exists for exactly that fingerprint, because the
guard tests Python truthiness (if not fingerprint) rather than presence.  So
"when the fingerprint is present it admits iff no completed session record
exists for that fingerprint" fails at fingerprint = some "". -/
theorem empty_fingerprint_admitted_despite_record :
    check_user_ever_completed (Except.ok [empty_fp_record])
        (some "203.0.113.5") (some "") = false ∧
      empty_fp_record.fingerprint = some "" ∧
      empty_fp_record.is_completed = true := by
  refine ⟨rfl, rfl, rfl⟩

/-- C2 amended: the guard admits when the fingerprint is absent or is the
empty string (Python-falsy); for a non-empty fingerprint it blocks exactly
when some completed durable record carries that fingerprint, independent of
the network identity argument and of the records' persona column; and if the
durable lookup errors it fails open and admits. -/
theorem access_guard_characterization
    (lookup : Except Unit (List SessionRecord)) (user_ip : Option String) :
    (check_user_ever_completed lookup user_ip none = false) ∧
    (check_user_ever_completed lookup user_ip (some "") = false) ∧
    (∀ fp, check_user_ever_completed (Except.error ()) user_ip fp = false) ∧
    (∀ records fp, fp ≠ "" →
      (check_user_ever_completed (Except.ok records) user_ip (some fp) = true ↔
        ∃ r ∈ records, r.fingerprint = some fp ∧ r.is_completed = true)) ∧
    (∀ fp ip2, check_user_ever_completed lookup user_ip fp =
      check_user_ever_completed lookup ip2 fp) ∧
    (∀ records fp (repaint : SessionRecord → String),
      check_user_ever_completed
          (Except.ok (records.map (fun r => { r with character_id := repaint r })))
          user_ip fp =
        check_user_ever_completed (Except.ok records) user_ip fp) := by
  refine ⟨rfl, rfl, fun fp => ?_, fun records fp hfp => ?_, fun fp ip2 => rfl,
    fun records fp repaint => ?_⟩
  · simp only [check_user_ever_completed]
    split <;> rfl
  · simp [check_user_ever_completed, py_truthy_str, hfp, List.any_eq_true]
  · simp only [check_user_ever_completed]
    split
    · rfl
    · simp [List.any_map]
      rfl

/-- A completed durable row under the non-empty fingerprint "fp-a", used by
the access-guard witness. -/
def prior_completed_record : SessionRecord :=
  { session_id := "s1", character_id := "Subin", fingerprint := some "fp-a",
    is_completed := true, user_ip := some "192.0.2.1", end_time := some 7 }

/-- C2 amended witness: with one completed record under fingerprint "fp-a",
the guard blocks "fp-a", admits the fresh "fp-b", admits an absent
fingerprint, and fails open on a lookup error. -/
theorem access_guard_characterization_witness :
    (check_user_ever_completed (Except.ok [prior_completed_record])
        (some "192.0.2.9") (some "fp-a") = true) ∧
    (check_user_ever_completed (Except.ok [prior_completed_record])
        (some "192.0.2.9") (some "fp-b") = false) ∧
    (check_user_ever_completed (Except.ok [prior_completed_record])
        (some "192.0.2.9") none = false) ∧
    (check_user_ever_completed (Except.error ()) (some "192.0.2.9")
      (some "fp-a") = false) := by
  have h := access_guard_characterization (Except.ok [prior_completed_record])
    (some "192.0.2.9")
  refine ⟨?_, ?_, h.1, ?_⟩
  · exact (h.2.2.2.1 _ "fp-a" (by decide)).mpr
      ⟨_, List.mem_singleton.mpr rfl, rfl, rfl⟩
  · have hb := h.2.2.2.1 [prior_completed_record] "fp-b" (by decide)
    by_contra hc
    simp only [Bool.not_eq_false] at hc
    obtain ⟨r, hr, hfp, _⟩ := hb.mp hc
    rw [List.mem_singleton] at hr
    subst hr
    exact absurd hfp (by decide)
  · exact (access_guard_characterization (Except.error ())
      (some "192.0.2.9")).2.2.1 (some "fp-a")

/-! ## C3: retry with exponential backoff (src/backend/services/elevenlabs_service.py lines 123-154)

The wrapped operation is modelled as a function from the attempt index to an
Except outcome; a run of _retry_with_backoff returns the surfaced outcome,
the number of calls actually issued, and the sleeps performed in order. -/

/-- Exceptions the wrapped operation can raise, as the retry loop
distinguishes them: an httpx.HTTPStatusError carrying the response status
code, an httpx transport-level failure (not an HTTPStatusError), any other
exception, and the loop's own final raise (unreachable for positive
max_retries). -/
inductive CallError
  | http_status (code : Nat)
  | transport
  | other_exc
  | retries_exceeded
deriving Repr, DecidableEq

/-- MAX_RETRIES (elevenlabs_service.py line 29). -/
def MAX_RETRIES : Nat := 3

/-- INITIAL_RETRY_DELAY in seconds (elevenlabs_service.py line 30). -/
def INITIAL_RETRY_DELAY : ℚ := 1 / 2

/-- Result of a retry run: the outcome surfaced to the caller, how many times
the wrapped operation was invoked, and the backoff sleeps in order. -/
structure RetryResult (α : Type) where
  outcome : Except CallError α
  calls : Nat
  delays : List ℚ
deriving Repr

/-- The for-loop body of _retry_with_backoff (lines 132-152): fuel counts the
iterations the loop still owns (max_retries - attempt); exhausting it falls
through to the final raise on line 154.  An HTTPStatusError is retried only
for status 429 or 503 and only while attempt < max_retries - 1; every other
exception is retried while attempt < max_retries - 1; each retry sleeps
initial_delay * 2 ^ attempt. -/
def retry_loop (f : Nat → Except CallError α) (max_retries : Nat)
    (initial_delay : ℚ) : Nat → Nat → RetryResult α
  | 0, _ => ⟨.error .retries_exceeded, 0, []⟩
  | fuel + 1, attempt =>
    match f attempt with
    | .ok a => ⟨.ok a, 1, []⟩
    | .error (.http_status c) =>
      if (c = 429 ∨ c = 503) ∧ attempt < max_retries - 1 then
        let r := retry_loop f max_retries initial_delay fuel (attempt + 1)
        ⟨r.outcome, r.calls + 1, initial_delay * 2 ^ attempt :: r.delays⟩
      else ⟨.error (.http_status c), 1, []⟩
    | .error e =>
      if attempt < max_retries - 1 then
        let r := retry_loop f max_retries initial_delay fuel (attempt + 1)
        ⟨r.outcome, r.calls + 1, initial_delay * 2 ^ attempt :: r.delays⟩
      else ⟨.error e, 1, []⟩

/-- _retry_with_backoff with its default arguments (elevenlabs_service.py
line 123): max_retries = MAX_RETRIES, initial_delay = INITIAL_RETRY_DELAY,
starting at attempt 0. -/
def retry_with_backoff (f : Nat → Except CallError α) : RetryResult α :=
  retry_loop f MAX_RETRIES INITIAL_RETRY_DELAY MAX_RETRIES 0

/-- Whether the loop treats this error as retriable (when attempts remain):
429/503 status errors and every non-HTTPStatusError exception. -/
def is_retried_error : CallError → Bool
  | .http_status c => c = 429 ∨ c = 503
  | _ => true

lemma retry_loop_ok (f : Nat → Except CallError α) (mr : Nat) (d : ℚ)
    (fuel attempt : Nat) (a : α) (h : f attempt = .ok a) :
    retry_loop f mr d (fuel + 1) attempt = ⟨.ok a, 1, []⟩ := by
  simp [retry_loop, h]

lemma retry_loop_retriable (f : Nat → Except CallError α) (mr : Nat) (d : ℚ)
    (fuel attempt : Nat) (e : CallError) (h : f attempt = .error e)
    (hret : is_retried_error e = true) (hlt : attempt < mr - 1) :
    retry_loop f mr d (fuel + 1) attempt =
      ⟨(retry_loop f mr d fuel (attempt + 1)).outcome,
        (retry_loop f mr d fuel (attempt + 1)).calls + 1,
        d * 2 ^ attempt :: (retry_loop f mr d fuel (attempt + 1)).delays⟩ := by
  cases e with
  | http_status c =>
    have hc : c = 429 ∨ c = 503 := by
      simpa [is_retried_error] using hret
    simp [retry_loop, h, hc, hlt]
  | transport => simp [retry_loop, h, hlt]
  | other_exc => simp [retry_loop, h, hlt]
  | retries_exceeded => simp [retry_loop, h, hlt]

lemma retry_loop_nonretriable (f : Nat → Except CallError α) (mr : Nat)
    (d : ℚ) (fuel attempt : Nat) (e : CallError) (h : f attempt = .error e)
    (hret : is_retried_error e = false) :
    retry_loop f mr d (fuel + 1) attempt = ⟨.error e, 1, []⟩ := by
  cases e with
  | http_status c =>
    have hc : ¬(c = 429 ∨ c = 503) := by
      simpa [is_retried_error] using hret
    simp only [retry_loop, h]
    rw [if_neg (by tauto)]
  | transport => simp [is_retried_error] at hret
  | other_exc => simp [is_retried_error] at hret
  | retries_exceeded => simp [is_retried_error] at hret

lemma retry_loop_last (f : Nat → Except CallError α) (mr : Nat) (d : ℚ)
    (fuel attempt : Nat) (e : CallError) (h : f attempt = .error e)
    (hge : ¬ attempt < mr - 1) :
    retry_loop f mr d (fuel + 1) attempt = ⟨.error e, 1, []⟩ := by
  cases e with
  | http_status c =>
    simp only [retry_loop, h]
    rw [if_neg (by tauto)]
  | transport => simp [retry_loop, h, hge]
  | other_exc => simp [retry_loop, h, hge]
  | retries_exceeded => simp [retry_loop, h, hge]

/-- C3 counterexample: an exception that is neither a rate-limit or
service-unavailable signal nor a transport failure — here other_exc, e.g. a
ValueError raised inside the wrapped operation — is nonetheless retried by
the generic except clause (lines 146-152): the operation is invoked 3 times
with backoff sleeps 1/2 and 1 before the error finally propagates, whereas
the claim requires a non-transient failure to propagate immediately with no
retry. -/
theorem non_transient_other_exception_is_retried :
    (retry_with_backoff (fun _ => (Except.error CallError.other_exc :
        Except CallError Unit))).calls = 3 ∧
    (retry_with_backoff (fun _ => (Except.error CallError.other_exc :
        Except CallError Unit))).delays = [1 / 2, 1] ∧
    is_retried_error CallError.other_exc = true := by
  refine ⟨rfl, ?_, rfl⟩
  show [INITIAL_RETRY_DELAY * 2 ^ 0, INITIAL_RETRY_DELAY * 2 ^ 1] = [1 / 2, 1]
  norm_num [INITIAL_RETRY_DELAY]

/-- C3 amended: with max_retries = 3 and initial_delay = 1/2 s, (i) if the
first k attempts fail with retried-class errors (status 429/503 or any
non-HTTPStatusError exception) and attempt k succeeds, the call succeeds
after k+1 invocations with sleeps 1/2 * 2^0, ..., 1/2 * 2^(k-1) — the sleep
before retry number n is the initial delay times 2^(n-1); (ii) an
HTTPStatusError whose status is neither 429 nor 503 propagates immediately,
with no further invocation and no sleep; (iii) if every attempt fails with a
retried-class error, the loop stops after exactly 3 invocations and
surfaces the last attempt's error. -/
theorem retry_backoff_characterization (α : Type)
    (f : Nat → Except CallError α) :
    (∀ k a, k < MAX_RETRIES →
      (∀ j, j < k → ∃ e, f j = .error e ∧ is_retried_error e = true) →
      f k = .ok a →
      (retry_with_backoff f).outcome = .ok a ∧
        (retry_with_backoff f).calls = k + 1 ∧
        (retry_with_backoff f).delays =
          (List.range k).map (fun j => INITIAL_RETRY_DELAY * 2 ^ j)) ∧
    (∀ k e, k < MAX_RETRIES →
      (∀ j, j < k → ∃ e, f j = .error e ∧ is_retried_error e = true) →
      f k = .error e → is_retried_error e = false →
      (retry_with_backoff f).outcome = .error e ∧
        (retry_with_backoff f).calls = k + 1 ∧
        (retry_with_backoff f).delays =
          (List.range k).map (fun j => INITIAL_RETRY_DELAY * 2 ^ j)) ∧
    ((∀ j, j < MAX_RETRIES → ∃ e, f j = .error e ∧ is_retried_error e = true) →
      ∃ e, f (MAX_RETRIES - 1) = .error e ∧
        (retry_with_backoff f).outcome = .error e ∧
        (retry_with_backoff f).calls = MAX_RETRIES ∧
        (retry_with_backoff f).delays =
          (List.range (MAX_RETRIES - 1)).map
            (fun j => INITIAL_RETRY_DELAY * 2 ^ j)) := by
  have hR : retry_with_backoff f = retry_loop f 3 INITIAL_RETRY_DELAY 3 0 := rfl
  refine ⟨?_, ?_, ?_⟩
  · intro k a hk hprev hok
    simp only [MAX_RETRIES] at hk
    interval_cases k
    · have s0 : retry_loop f 3 INITIAL_RETRY_DELAY 3 0 = ⟨.ok a, 1, []⟩ :=
        retry_loop_ok f 3 INITIAL_RETRY_DELAY 2 0 a hok
      rw [hR, s0]
      exact ⟨rfl, rfl, by simp⟩
    · obtain ⟨e0, he0, hr0⟩ := hprev 0 (by norm_num)
      have s0 := retry_loop_retriable f 3 INITIAL_RETRY_DELAY 2 0 e0 he0 hr0
        (by norm_num)
      have s1 : retry_loop f 3 INITIAL_RETRY_DELAY 2 1 = ⟨.ok a, 1, []⟩ :=
        retry_loop_ok f 3 INITIAL_RETRY_DELAY 1 1 a hok
      rw [hR, s0, s1]
      exact ⟨rfl, rfl, by simp [List.range_succ]⟩
    · obtain ⟨e0, he0, hr0⟩ := hprev 0 (by norm_num)
      obtain ⟨e1, he1, hr1⟩ := hprev 1 (by norm_num)
      have s0 := retry_loop_retriable f 3 INITIAL_RETRY_DELAY 2 0 e0 he0 hr0
        (by norm_num)
      have s1 := retry_loop_retriable f 3 INITIAL_RETRY_DELAY 1 1 e1 he1 hr1
        (by norm_num)
      have s2 : retry_loop f 3 INITIAL_RETRY_DELAY 1 2 = ⟨.ok a, 1, []⟩ :=
        retry_loop_ok f 3 INITIAL_RETRY_DELAY 0 2 a hok
      rw [hR, s0, s1, s2]
      refine ⟨rfl, rfl, ?_⟩
      simp [List.range_succ]
  · intro k e hk hprev herr hnot
    simp only [MAX_RETRIES] at hk
    interval_cases k
    · have s0 : retry_loop f 3 INITIAL_RETRY_DELAY 3 0 = ⟨.error e, 1, []⟩ :=
        retry_loop_nonretriable f 3 INITIAL_RETRY_DELAY 2 0 e herr hnot
      rw [hR, s0]
      exact ⟨rfl, rfl, by simp⟩
    · obtain ⟨e0, he0, hr0⟩ := hprev 0 (by norm_num)
      have s0 := retry_loop_retriable f 3 INITIAL_RETRY_DELAY 2 0 e0 he0 hr0
        (by norm_num)
      have s1 : retry_loop f 3 INITIAL_RETRY_DELAY 2 1 = ⟨.error e, 1, []⟩ :=
        retry_loop_nonretriable f 3 INITIAL_RETRY_DELAY 1 1 e herr hnot
      rw [hR, s0, s1]
      exact ⟨rfl, rfl, by simp [List.range_succ]⟩
    · obtain ⟨e0, he0, hr0⟩ := hprev 0 (by norm_num)
      obtain ⟨e1, he1, hr1⟩ := hprev 1 (by norm_num)
      have s0 := retry_loop_retriable f 3 INITIAL_RETRY_DELAY 2 0 e0 he0 hr0
        (by norm_num)
      have s1 := retry_loop_retriable f 3 INITIAL_RETRY_DELAY 1 1 e1 he1 hr1
        (by norm_num)
      have s2 : retry_loop f 3 INITIAL_RETRY_DELAY 1 2 = ⟨.error e, 1, []⟩ :=
        retry_loop_nonretriable f 3 INITIAL_RETRY_DELAY 0 2 e herr hnot
      rw [hR, s0, s1, s2]
      refine ⟨rfl, rfl, ?_⟩
      simp [List.range_succ]
  · intro hall
    obtain ⟨e0, he0, hr0⟩ := hall 0 (by simp [MAX_RETRIES])
    obtain ⟨e1, he1, hr1⟩ := hall 1 (by simp [MAX_RETRIES])
    obtain ⟨e2, he2, hr2⟩ := hall 2 (by simp [MAX_RETRIES])
    have s0 := retry_loop_retriable f 3 INITIAL_RETRY_DELAY 2 0 e0 he0 hr0
      (by norm_num)
    have s1 := retry_loop_retriable f 3 INITIAL_RETRY_DELAY 1 1 e1 he1 hr1
      (by norm_num)
    have s2 : retry_loop f 3 INITIAL_RETRY_DELAY 1 2 = ⟨.error e2, 1, []⟩ :=
      retry_loop_last f 3 INITIAL_RETRY_DELAY 0 2 e2 he2 (by norm_num)
    refine ⟨e2, he2, ?_, ?_, ?_⟩
    · rw [hR, s0, s1, s2]
    · rw [hR, s0, s1, s2]
      norm_num [MAX_RETRIES]
    · rw [hR, s0, s1, s2]
      simp [MAX_RETRIES, List.range_succ]

/-- C3 amended witness: the first attempt fails with a transport error, the
second succeeds — the call is retried once after a 1/2 s sleep and surfaces
the success. -/
theorem retry_backoff_characterization_witness :
    (retry_with_backoff (fun n => if n = 0 then .error CallError.transport
        else .ok "hi")).outcome = .ok "hi" ∧
    (retry_with_backoff (fun n => if n = 0 then .error CallError.transport
        else .ok "hi")).calls = 2 ∧
    (retry_with_backoff (fun n => if n = 0 then .error CallError.transport
        else .ok "hi")).delays = [INITIAL_RETRY_DELAY * 2 ^ 0] := by
  have h := (retry_backoff_characterization String
      (fun n => if n = 0 then .error CallError.transport else .ok "hi")).1
      1 "hi" (by simp [MAX_RETRIES])
      (by
        intro j hj
        interval_cases j
        exact ⟨CallError.transport, rfl, rfl⟩)
      (by simp)
  refine ⟨h.1, h.2.1, ?_⟩
  rw [h.2.2]
  simp [List.range_succ]

/-! ## C8: admission token handling in the gate wrappers
(src/backend/services/elevenlabs_service.py lines 174-212 and 232-291)

convert_speech_to_text and convert_text_to_speech wrap the retry loop in
async with stt_semaphore / tts_semaphore, which desugars to acquire followed
by try body finally release — the release runs on the success path and on
every raising path.  Each run is recorded as a trace of gate events. -/

/-- Observable events of one gated call: semaphore acquisition, the
individual remote call attempts, and semaphore release. -/
inductive GateEvent
  | acquire (capability : String)
  | call_attempt (capability : String) (attempt : Nat)
  | release (capability : String)
deriving Repr, DecidableEq

/-- What a gate wrapper raises to its caller: the fresh generic Exception it
builds for an HTTPStatusError (lines 205-208 and 284-287), or the original
exception re-raised unchanged (lines 209-212 and 288-291). -/
inductive ServiceError
  | generic (msg : String)
  | passthrough (e : CallError)
deriving Repr, DecidableEq

/-- convert_speech_to_text (elevenlabs_service.py lines 174-212).  f models
the successive _call_stt_api attempts; the String payload models the
result.get of the parsed response, i.e. the extracted transcript.  The trace
records acquisition of the stt token, each attempt issued by
_retry_with_backoff while the token is held, and the unconditional release. -/
def convert_speech_to_text (f : Nat → Except CallError String) :
    Except ServiceError String × List GateEvent :=
  let r := retry_with_backoff f
  let outcome : Except ServiceError String :=
    match r.outcome with
    | .ok text => .ok text
    | .error (.http_status _) =>
      .error (.generic "음성 변환 중 오류가 발생했습니다.")
    | .error e => .error (.passthrough e)
  (outcome,
    GateEvent.acquire "stt" ::
      ((List.range r.calls).map (GateEvent.call_attempt "stt") ++
        [GateEvent.release "stt"]))

/-- convert_text_to_speech (elevenlabs_service.py lines 232-291); the
List Nat payload models the response's audio bytes. -/
def convert_text_to_speech (f : Nat → Except CallError (List Nat)) :
    Except ServiceError (List Nat) × List GateEvent :=
  let r := retry_with_backoff f
  let outcome : Except ServiceError (List Nat) :=
    match r.outcome with
    | .ok content => .ok content
    | .error (.http_status _) =>
      .error (.generic "음성 합성 중 오류가 발생했습니다.")
    | .error e => .error (.passthrough e)
  (outcome,
    GateEvent.acquire "tts" ::
      ((List.range r.calls).map (GateEvent.call_attempt "tts") ++
        [GateEvent.release "tts"]))

lemma retry_loop_calls_le (f : Nat → Except CallError α) (mr : Nat) (d : ℚ) :
    ∀ fuel attempt, (retry_loop f mr d fuel attempt).calls ≤ fuel := by
  intro fuel
  induction fuel with
  | zero => intro attempt; simp [retry_loop]
  | succ n ih =>
    intro attempt
    rcases hf : f attempt with e | a
    case ok => simp [retry_loop, hf]
    cases e with
      | http_status c =>
        simp only [retry_loop, hf]
        split
        · have := ih (attempt + 1)
          simpa using Nat.add_le_add_right this 1
        · simp
      | transport =>
        simp only [retry_loop, hf]
        split
        · have := ih (attempt + 1)
          simpa using Nat.add_le_add_right this 1
        · simp
      | other_exc =>
        simp only [retry_loop, hf]
        split
        · have := ih (attempt + 1)
          simpa using Nat.add_le_add_right this 1
        · simp
      | retries_exceeded =>
        simp only [retry_loop, hf]
        split
        · have := ih (attempt + 1)
          simpa using Nat.add_le_add_right this 1
        · simp

lemma retry_loop_calls_pos (f : Nat → Except CallError α) (mr : Nat) (d : ℚ)
    (fuel attempt : Nat) :
    1 ≤ (retry_loop f mr d (fuel + 1) attempt).calls := by
  rcases hf : f attempt with e | a
  case ok => simp [retry_loop, hf]
  cases e with
    | http_status c =>
      simp only [retry_loop, hf]
      split <;> simp
    | transport =>
      simp only [retry_loop, hf]
      split <;> simp
    | other_exc =>
      simp only [retry_loop, hf]
      split <;> simp
    | retries_exceeded =>
      simp only [retry_loop, hf]
      split <;> simp

lemma gate_trace_counts (cap : String) (n : Nat) :
    (GateEvent.acquire cap ::
        ((List.range n).map (GateEvent.call_attempt cap) ++
          [GateEvent.release cap])).count (GateEvent.acquire cap) = 1 ∧
      (GateEvent.acquire cap ::
        ((List.range n).map (GateEvent.call_attempt cap) ++
          [GateEvent.release cap])).count (GateEvent.release cap) = 1 := by
  constructor
  · rw [List.count_cons_self, List.count_append]
    have h1 : ((List.range n).map (GateEvent.call_attempt cap)).count
        (GateEvent.acquire cap) = 0 := by
      rw [List.count_eq_zero]
      simp [List.mem_map]
    have h2 : ([GateEvent.release cap]).count (GateEvent.acquire cap) = 0 := by
      simp [List.count_singleton]
    omega
  · rw [List.count_cons_of_ne (by simp), List.count_append]
    have h1 : ((List.range n).map (GateEvent.call_attempt cap)).count
        (GateEvent.release cap) = 0 := by
      rw [List.count_eq_zero]
      simp [List.mem_map]
    simp [h1]

/-- C8: for every outcome pattern of the wrapped remote calls — success,
error propagation, retry exhaustion — the trace of a gated
transcription or synthesis call is exactly one acquisition of that
capability's token, followed by between 1 and MAX_RETRIES remote call
attempts while the token is held, followed by exactly one release; in
particular the token is acquired before the first remote call, released
after the last, and acquired and released exactly once per call. -/
theorem gate_releases_token_exactly_once
    (f : Nat → Except CallError String)
    (g : Nat → Except CallError (List Nat)) :
    (∃ n, 1 ≤ n ∧ n ≤ MAX_RETRIES ∧
      (convert_speech_to_text f).2 =
        GateEvent.acquire "stt" ::
          ((List.range n).map (GateEvent.call_attempt "stt") ++
            [GateEvent.release "stt"])) ∧
    (∃ n, 1 ≤ n ∧ n ≤ MAX_RETRIES ∧
      (convert_text_to_speech g).2 =
        GateEvent.acquire "tts" ::
          ((List.range n).map (GateEvent.call_attempt "tts") ++
            [GateEvent.release "tts"])) ∧
    ((convert_speech_to_text f).2.count (GateEvent.acquire "stt") = 1) ∧
    ((convert_speech_to_text f).2.count (GateEvent.release "stt") = 1) ∧
    ((convert_text_to_speech g).2.count (GateEvent.acquire "tts") = 1) ∧
    ((convert_text_to_speech g).2.count (GateEvent.release "tts") = 1) := by
  refine ⟨⟨(retry_with_backoff f).calls, ?_, ?_, rfl⟩,
    ⟨(retry_with_backoff g).calls, ?_, ?_, rfl⟩, ?_, ?_, ?_, ?_⟩
  · exact retry_loop_calls_pos f MAX_RETRIES INITIAL_RETRY_DELAY 2 0
  · exact retry_loop_calls_le f MAX_RETRIES INITIAL_RETRY_DELAY MAX_RETRIES 0
  · exact retry_loop_calls_pos g MAX_RETRIES INITIAL_RETRY_DELAY 2 0
  · exact retry_loop_calls_le g MAX_RETRIES INITIAL_RETRY_DELAY MAX_RETRIES 0
  · exact (gate_trace_counts "stt" (retry_with_backoff f).calls).1
  · exact (gate_trace_counts "stt" (retry_with_backoff f).calls).2
  · exact (gate_trace_counts "tts" (retry_with_backoff g).calls).1
  · exact (gate_trace_counts "tts" (retry_with_backoff g).calls).2

/-! ## C9: difficulty handling in the init branch (main.py lines 592-593 and 702-723)

The handler sets session.difficulty = "intermediate" at connection time.  On
every init message it reads data.get("difficulty") and, whenever the value is
truthy and one of beginner/intermediate/advanced, assigns it to
session.difficulty — there is no once-only guard (unlike the fingerprint,
which is guarded by "and not fingerprint" on line 670). -/

/-- The accepted difficulty values (main.py line 704). -/
def valid_difficulties : List String := ["beginner", "intermediate", "advanced"]

/-- The default difficulty assigned at connection time (main.py line 593). -/
def default_difficulty : String := "intermediate"

/-- The difficulty update performed by one init message (main.py lines
702-705): received is data.get("difficulty"); a truthy value contained in
the valid list overwrites the session's difficulty, anything else leaves it. -/
def handle_init_difficulty (current : String) (received : Option String) :
    String :=
  match received with
  | none => current
  | some d => if d ≠ "" ∧ d ∈ valid_difficulties then d else current

/-- The session difficulty after a sequence of init messages, starting from
the connection-time default. -/
def difficulty_after (received_values : List (Option String)) : String :=
  received_values.foldl handle_init_difficulty default_difficulty

/-- C9 counterexample: one init message sets difficulty to "beginner", a
later init message carrying "advanced" changes it again — the first set does
not latch, so "no later client message changes the difficulty after that
first set" fails. -/
theorem difficulty_not_latched_after_first_set :
    difficulty_after [some "beginner", some "advanced"] = "advanced" ∧
      difficulty_after [some "beginner"] = "beginner" ∧
      "advanced" ≠ "beginner" := by
  refine ⟨?_, ?_, by decide⟩ <;> rfl

/-- C9 amended: difficulty defaults to "intermediate" until a valid value
arrives, an init message without a difficulty or with an invalid one leaves
it unchanged — but every init message carrying a valid difficulty overwrites
it, so the last valid value received wins rather than the first. -/
theorem difficulty_default_and_last_write_wins
    (current : String) (d : String) :
    (difficulty_after [] = "intermediate") ∧
    (handle_init_difficulty current none = current) ∧
    (d ∈ valid_difficulties → d ≠ "" →
      handle_init_difficulty current (some d) = d) ∧
    (d ∉ valid_difficulties → handle_init_difficulty current (some d) = current) ∧
    (∀ received_values, d ∈ valid_difficulties → d ≠ "" →
      difficulty_after (received_values ++ [some d]) = d) := by
  refine ⟨rfl, rfl, fun hv hne => ?_, fun hv => ?_, fun rv hv hne => ?_⟩
  · simp [handle_init_difficulty, hv, hne]
  · simp [handle_init_difficulty, hv]
  · have hstep : ∀ c, handle_init_difficulty c (some d) = d := by
      intro c
      simp [handle_init_difficulty, hv, hne]
    simp [difficulty_after, List.foldl_append, hstep]

/-- C9 amended witness: with no init message the difficulty is intermediate;
"advanced" received after "beginner" wins; an invalid value is ignored. -/
theorem difficulty_default_and_last_write_wins_witness :
    difficulty_after [] = "intermediate" ∧
      difficulty_after [some "beginner", none, some "expert", some "advanced"]
        = "advanced" := by
  refine ⟨(difficulty_default_and_last_write_wins "x" "advanced").1, ?_⟩
  exact (difficulty_default_and_last_write_wins "x" "advanced").2.2.2.2
    [some "beginner", none, some "expert"] (by decide) (by decide)

/-! ## C10: the difficulty keyword argument of db.create_session
(main.py lines 596-603 against database.py lines 93-100)

Database.create_session declares the parameters session_id, character_id,
user_ip, user_agent, fingerprint (besides self) and has no **kwargs.  The
handler calls it with an additional difficulty keyword.  Python raises
TypeError at the call site — before the function body and its internal
try/except run — and the call sits outside the handler's try block, before
the connected message is sent. -/

/-- Parameter names of Database.create_session (database.py lines 93-100),
excluding self. -/
def create_session_params : List String :=
  ["session_id", "character_id", "user_ip", "user_agent", "fingerprint"]

/-- Keyword-argument names of the db.create_session call in websocket_chat
(main.py lines 596-603). -/
def create_session_call_kwargs : List String :=
  ["session_id", "character_id", "user_ip", "user_agent", "fingerprint",
    "difficulty"]

/-- Result of Python keyword-argument binding against a signature without
**kwargs: a TypeError naming an unexpected keyword, or success. -/
inductive PyCallResult
  | ok
  | type_error (unexpected_kw : String)
deriving Repr, DecidableEq

/-- Python call binding: the call raises TypeError on an unexpected keyword
argument, i.e. the first keyword that is not among the declared parameters. -/
def bind_kwargs (params kwargs : List String) : PyCallResult :=
  match kwargs.find? (fun k => !(params.contains k)) with
  | some k => .type_error k
  | none => .ok

/-- Steps of the connect phase of websocket_chat (main.py lines 566-647), in
program order. -/
inductive ConnectStep
  | accept_conn
  | ip_block_check
  | send_blocked
  | close_conn
  | create_local_session
  | db_create_session
  | send_connected
deriving Repr, DecidableEq

/-- The connect phase of websocket_chat (main.py lines 566-647): accept, the
coarse IP-based block check (returning early when blocked), local session
creation, the db.create_session call — whose keyword binding is checked
against the storage signature; a TypeError there propagates, since the
handler's try block only starts at line 617 — and only then the connected
message.  Returns the executed steps and the unexpected keyword of a raised
TypeError, if any. -/
def connect_phase (ip_blocked : Bool) : List ConnectStep × Option String :=
  if ip_blocked then
    ([.accept_conn, .ip_block_check, .send_blocked, .close_conn], none)
  else
    match bind_kwargs create_session_params create_session_call_kwargs with
    | .type_error k =>
      ([.accept_conn, .ip_block_check, .create_local_session,
        .db_create_session], some k)
    | .ok =>
      ([.accept_conn, .ip_block_check, .create_local_session,
        .db_create_session, .send_connected], none)

/-- C10: the handler's db.create_session call carries the keyword difficulty,
which the storage signature does not declare, so on every connection admitted
by the coarse IP check the call raises TypeError naming difficulty, and the
connect phase aborts after the db_create_session step without ever sending
the connected message. -/
theorem create_session_difficulty_kwarg_type_error (ip_blocked : Bool)
    (h : ip_blocked = false) :
    bind_kwargs create_session_params create_session_call_kwargs =
        .type_error "difficulty" ∧
      (connect_phase ip_blocked).2 = some "difficulty" ∧
      ConnectStep.send_connected ∉ (connect_phase ip_blocked).1 ∧
      (connect_phase ip_blocked).1.getLast? = some .db_create_session := by
  subst h
  refine ⟨rfl, rfl, ?_, rfl⟩
  decide

/-- C10 witness: the admitted-connection case evaluated concretely. -/
theorem create_session_difficulty_kwarg_type_error_witness :
    bind_kwargs create_session_params create_session_call_kwargs =
        .type_error "difficulty" ∧
      (connect_phase false).2 = some "difficulty" ∧
      ConnectStep.send_connected ∉ (connect_phase false).1 ∧
      (connect_phase false).1.getLast? = some .db_create_session :=
  create_session_difficulty_kwarg_type_error false rfl

/-! ## C5: background evaluation vs final-turn persistence
(main.py lines 816-1037, in particular 843, 851-863, 966-994)

On the final turn the handler runs, in this program order within one
coroutine: session.add_message("user", ...) (line 828); asyncio.create_task
of the evaluation of the final utterance (line 843); session.complete_session
(line 853); db.complete_session persisting conversation_history and
feedback_data = session.feedback_items (lines 856-863); the first await after
the task creation (the reply generation, line 878); add_message("ai", ...);
asyncio.create_task(save_evaluation) (line 994), whose body awaits the
evaluation task and appends its result to session.feedback_items; and break
(line 1037), which leaves the loop and tears the connection down without
awaiting either task.

Under asyncio, a task created by create_task cannot run before the creating
coroutine reaches an await, so the db.complete_session snapshot on line 856 —
taken with no intervening await — is the feedback list as it stood before the
final turn's evaluation; and save_evaluation, which performs the append, is
itself only spawned after the persist and never awaited before the break.
The model below threads that schedule explicitly: the persisted feedback is
the pre-turn snapshot, while the in-memory append (if the evaluation yields
an item) lands only after the persist. -/

/-- Effects of the final-turn path in execution order. -/
inductive TurnEffect
  | add_user_message
  | db_update_turn (turn : Nat)
  | spawn_eval
  | local_complete
  | db_complete_persist (persisted_feedback : List FeedbackItem)
  | await_llm
  | add_ai_message
  | spawn_save_eval
  | close_conn
deriving Repr, DecidableEq

/-- The final-turn path (the is_final_turn = True branch of the audio
handler): returns the in-memory session once every spawned task has had a
chance to run, the feedback list persisted durably by db.complete_session,
and the effect trace.  eval_result is what the background evaluation of the
final utterance eventually returns (none models "no issue found" or a failed
evaluation, some item a produced feedback item). -/
def final_turn (s : ConversationSession) (user_text ai_text : String)
    (eval_result : Option FeedbackItem) (now : Nat) :
    ConversationSession × List FeedbackItem × List TurnEffect :=
  let s1 := s.add_message "user" user_text now
  let persisted := s1.feedback_items
  let s2 := s1.complete_session now
  let s3 := s2.add_message "ai" ai_text now
  let s4 := match eval_result with
    | some item => s3.add_feedback_item item
    | none => s3
  (s4, persisted,
    [.add_user_message, .db_update_turn s1.turn_count, .spawn_eval,
      .local_complete, .db_complete_persist persisted, .await_llm,
      .add_ai_message, .spawn_save_eval, .close_conn])

/-- C5: the feedback persisted with the completed session is the snapshot
taken before the final turn's evaluation could run: when that evaluation
produces a feedback item, the item reaches only the in-memory session — the
durable record's feedback list is one item short of the evaluated turns, and
the trace shows the persist happening before save_evaluation is even
spawned and the connection closing without a join.  So the in-flight
background evaluation is not awaited before teardown and the persisted
feedback of a completed session is silently truncated, contradicting the
claim. -/
theorem final_turn_persisted_feedback_truncated
    (s : ConversationSession) (user_text ai_text : String)
    (item : FeedbackItem) (now : Nat) :
    (final_turn s user_text ai_text (some item) now).2.1 = s.feedback_items ∧
    (final_turn s user_text ai_text (some item) now).1.feedback_items =
      s.feedback_items ++ [item] ∧
    (final_turn s user_text ai_text (some item) now).1.is_completed = true ∧
    (final_turn s user_text ai_text (some item) now).2.2 =
      [.add_user_message, .db_update_turn (s.turn_count + 1), .spawn_eval,
        .local_complete, .db_complete_persist s.feedback_items, .await_llm,
        .add_ai_message, .spawn_save_eval, .close_conn] := by
  refine ⟨rfl, ?_, ?_, ?_⟩
  · simp [final_turn, ConversationSession.add_message,
      ConversationSession.complete_session, ConversationSession.add_feedback_item]
  · simp [final_turn, ConversationSession.add_message,
      ConversationSession.complete_session, ConversationSession.add_feedback_item]
  · simp [final_turn, ConversationSession.add_message]

/-- C5 evaluation at the concrete failing input: a session at turn 9 with
one earlier feedback item runs its 10th turn; the final evaluation yields an
item, yet the durable record keeps only the earlier item while the in-memory
session holds two. -/
theorem final_turn_truncation_at_failing_input :
    (final_turn
        ((run_turns (ConversationSession.new "s" "jihoon" 0)
          [("a","b"),("c","d"),("e","f"),("g","h"),("i","j"),("k","l"),
            ("m","n"),("o","p"),("q","r")] 1).add_feedback_item "earlier-item")
        "final utterance" "closing reply" (some "final-item") 2).2.1 =
      ["earlier-item"] ∧
    (final_turn
        ((run_turns (ConversationSession.new "s" "jihoon" 0)
          [("a","b"),("c","d"),("e","f"),("g","h"),("i","j"),("k","l"),
            ("m","n"),("o","p"),("q","r")] 1).add_feedback_item "earlier-item")
        "final utterance" "closing reply" (some "final-item") 2).1.feedback_items
      = ["earlier-item", "final-item"] := by
  exact ⟨rfl, rfl⟩

end AivoiceLearning
